import Mathlib

/-!
Shallow embedding of the samples module of the erp-backend repository
(src/modules/samples): data model (models/sample.py), request schemas
(schemas/sample.py) and route handlers (routes/samples.py), together with
theorems settling the specification claims about them.

Conventions of the embedding:
* each database table is a list of rows; the session is explicit state
  passing over a `SamplesState` record;
* SQLAlchemy `Float` columns are modelled as `Rat` (the claims only concern
  which value is stored, never rounding);
* datetime columns are opaque `String`s;
* pydantic update schemas distinguish an unset field from a field set to
  null, so updatable nullable fields are `Option (Option t)`: `none` means
  the key was absent from the request (excluded by `exclude_unset`),
  `some v` means the key was present with value `v` (possibly null);
  attribute access on the schema object yields `Option.join`;
* Python truthiness on numbers (`if operation_dict.get('duration')`,
  `if buyer_id:`) is `≠ 0` on the present value and false on `None`;
* `query(...).filter(pk == id).first()` is `List.find?`; updating the found
  ORM object in place is replacing the first matching row; `db.delete(obj)`
  removes the first matching row.
-/

/-! ### Generic list machinery: stable sort, first-match replace/remove -/

def insertBy (le : α → α → Bool) (a : α) : List α → List α
  | [] => [a]
  | b :: bs => if le a b then a :: b :: bs else b :: insertBy le a bs

/-- Stable insertion sort, mirroring Python's stable `sorted`. -/
def sortBy (le : α → α → Bool) : List α → List α
  | [] => []
  | a :: as => insertBy le a (sortBy le as)

/-- Replace the first element satisfying `p` with `a` (in-place ORM update). -/
def replaceFirstBy (p : α → Bool) (a : α) : List α → List α
  | [] => []
  | b :: bs => if p b then a :: bs else b :: replaceFirstBy p a bs

/-- Remove the first element satisfying `p` (a `db.delete` of the found row). -/
def removeFirstBy (p : α → Bool) : List α → List α
  | [] => []
  | b :: bs => if p b then bs else b :: removeFirstBy p bs

/-- Next autoincrement primary key. -/
def nextId (ids : List Nat) : Nat := ids.foldr max 0 + 1

theorem perm_insertBy (le : α → α → Bool) (a : α) (l : List α) :
    (insertBy le a l).Perm (a :: l) := by
  induction l with
  | nil => simp [insertBy]
  | cons b bs ih =>
    simp only [insertBy]
    by_cases h : le a b
    · simp [h]
    · simp only [h, if_neg, Bool.false_eq_true, not_false_eq_true, ite_false]
      exact (ih.cons b).trans (List.Perm.swap a b bs)

theorem perm_sortBy (le : α → α → Bool) (l : List α) :
    (sortBy le l).Perm l := by
  induction l with
  | nil => simp [sortBy]
  | cons a as ih =>
    exact (perm_insertBy le a (sortBy le as)).trans (ih.cons a)

theorem mem_sortBy {le : α → α → Bool} {l : List α} {x : α} :
    x ∈ sortBy le l ↔ x ∈ l :=
  (perm_sortBy le l).mem_iff

theorem length_sortBy (le : α → α → Bool) (l : List α) :
    (sortBy le l).length = l.length :=
  (perm_sortBy le l).length_eq

/-- Sorting an already-sorted list is the identity. -/
theorem sortBy_eq_of_pairwise (le : α → α → Bool) (l : List α)
    (h : l.Pairwise (fun a b => le a b = true)) : sortBy le l = l := by
  induction l with
  | nil => rfl
  | cons a as ih =>
    rcases List.pairwise_cons.mp h with ⟨ha, has⟩
    simp only [sortBy, ih has]
    cases as with
    | nil => rfl
    | cons b bs => simp [insertBy, ha b (by simp)]

theorem find?_replaceFirstBy_self {p : α → Bool} {l : List α} {b : α}
    (hfind : l.find? p = some b) (a : α) (ha : p a = true) :
    (replaceFirstBy p a l).find? p = some a := by
  induction l with
  | nil => simp [List.find?] at hfind
  | cons c cs ih =>
    by_cases hc : p c
    · simp [replaceFirstBy, hc, List.find?, ha]
    · simp only [replaceFirstBy, hc, Bool.false_eq_true, not_false_eq_true, ite_false]
      rw [List.find?_cons_of_neg _ (by simp [hc])]
      rw [List.find?_cons_of_neg _ (by simp [hc])] at hfind
      exact ih hfind

/-- Replacing the first `p`-element leaves `find?` for a disjoint predicate alone. -/
theorem find?_replaceFirstBy_of_disjoint {p q : α → Bool} {l : List α} {a : α}
    (hdis : ∀ x, p x = true → q x = false) (ha : q a = false) :
    (replaceFirstBy p a l).find? q = l.find? q := by
  induction l with
  | nil => rfl
  | cons c cs ih =>
    by_cases hc : p c
    · have hqc : q c = false := hdis c hc
      simp [replaceFirstBy, hc, List.find?, hqc, ha]
    · simp only [replaceFirstBy, hc, Bool.false_eq_true, not_false_eq_true, ite_false]
      by_cases hqc : q c
      · simp [List.find?, hqc]
      · rw [List.find?_cons_of_neg _ (by simp [hqc]),
          List.find?_cons_of_neg _ (by simp [hqc])]
        exact ih

theorem countP_replaceFirstBy {p : α → Bool} {l : List α} {a : α}
    (ha : p a = true) : (replaceFirstBy p a l).countP p = l.countP p := by
  induction l with
  | nil => rfl
  | cons c cs ih =>
    by_cases hc : p c
    · simp [replaceFirstBy, hc, List.countP_cons, ha]
    · simp [replaceFirstBy, hc, List.countP_cons, ih]

theorem find?_removeFirstBy_of_countP_le_one {p : α → Bool} {l : List α}
    (h : l.countP p ≤ 1) : (removeFirstBy p l).find? p = none := by
  induction l with
  | nil => rfl
  | cons c cs ih =>
    rw [List.countP_cons] at h
    by_cases hc : p c
    · simp only [hc, if_true, ite_true] at h
      have h0 : cs.countP p = 0 := by omega
      simp only [removeFirstBy, hc, ite_true]
      rw [List.find?_eq_none]
      intro x hx
      have hx0 := List.countP_eq_zero.mp h0 x hx
      simp [hx0]
    · simp only [hc, Bool.false_eq_true, not_false_eq_true, ite_false, if_false,
        Nat.add_zero] at h
      simp only [removeFirstBy, hc, Bool.false_eq_true, not_false_eq_true, ite_false]
      rw [List.find?_cons_of_neg _ (by simp [hc])]
      exact ih h

theorem find?_eq_some_countP_pos {p : α → Bool} {l : List α} {b : α}
    (h : l.find? p = some b) : 0 < l.countP p := by
  have hb := List.find?_some h
  have hmem := List.mem_of_find?_eq_some h
  calc 0 < 1 := Nat.one_pos
    _ ≤ l.countP p := List.one_le_countP_iff.mpr ⟨b, hmem, hb⟩

/-! ### Data model (src/modules/samples/models/sample.py) -/

namespace ErpSamples

/-- The fixed submit status that triggers the round increment
(routes/samples.py, update_sample). -/
def remakeStatus : String := "Reject and Request for remake"

/-- Row of table style_summaries (model StyleSummary). -/
structure StyleSummary where
  id : Nat
  buyer_id : Int
  style_name : String
  style_id : String
  product_category : Option String
  product_type : Option String
  customs_customer_group : Option String
  type_of_construction : Option String
  gauge : Option String
  style_description : Option String
  is_set : Bool
  set_piece_count : Option Int
  deriving DecidableEq

/-- Row of table style_variants (model StyleVariant), scalar columns only;
the color_parts relationship is the set of VariantColorPart rows whose
style_variant_id points here. -/
structure StyleVariant where
  id : Nat
  style_summary_id : Nat
  style_name : String
  style_id : String
  colour_name : String
  colour_code : Option String
  colour_ref : Option String
  is_multicolor : Bool
  display_name : Option String
  piece_name : Option String
  sizes : Option (List String)
  deriving DecidableEq

/-- Row of table style_variant_colors (model VariantColorPart). -/
structure VariantColorPart where
  id : Nat
  style_variant_id : Nat
  part_name : String
  colour_name : String
  colour_code : Option String
  colour_ref : Option String
  sort_order : Int
  deriving DecidableEq

/-- Row of table samples (model Sample). Columns that a SampleUpdate payload
may null out are carried as Option even when the column is declared
non-null, because the ORM attribute can hold None before the flush;
none of the claims depends on that distinction. -/
structure Sample where
  id : Nat
  sample_id : String
  buyer_id : Int
  style_id : Nat
  sample_type : Option String
  sample_description : Option String
  item : Option String
  gauge : Option String
  worksheet_rcv_date : Option String
  yarn_rcv_date : Option String
  required_date : Option String
  color : Option String
  assigned_designer : Option String
  required_sample_quantity : Option Int
  round : Int
  notes : Option String
  submit_status : Option String
  deriving DecidableEq

/-- Payload/stored fields shared by SamplePlanCreate (schemas/sample.py) and
the sample_plan row (model SamplePlan): the upsert in create_plan writes
every one of these fields from the payload, so row = id + these fields. -/
structure SamplePlanCreate where
  sample_id : String
  buyer_name : String
  style_name : String
  sample_type : String
  sample_description : Option String
  item : Option String
  gauge : Option String
  worksheet_rcv_date : Option String
  yarn_rcv_date : Option String
  required_date : Option String
  color : Option String
  piece_name : Option String
  assigned_designer : Option String
  required_sample_quantity : Option Int
  round : Int
  notes : Option String
  submit_status : Option String
  deriving DecidableEq

/-- Row of table sample_plan (model SamplePlan). -/
structure SamplePlan where
  id : Nat
  data : SamplePlanCreate
  deriving DecidableEq

/-- Fields shared by the SampleOperationCreate schema and the
sample_operations row (model SampleOperation); durations are Rat standing
in for SQL Float. -/
structure SampleOperationFields where
  sample_id : Nat
  operation_type : String
  name_of_operation : String
  number_of_operation : Int
  size : Option String
  duration : Option Rat
  total_duration : Option Rat
  deriving DecidableEq

/-- Row of table sample_operations. -/
structure SampleOperation where
  id : Nat
  data : SampleOperationFields
  deriving DecidableEq

/-- The samples-module database: one list of rows per table. -/
structure SamplesState where
  styles : List StyleSummary
  variants : List StyleVariant
  colorParts : List VariantColorPart
  samples : List Sample
  operations : List SampleOperation
  plans : List SamplePlan
  deriving DecidableEq

/-! ### Request schemas (src/modules/samples/schemas/sample.py) -/

/-- Schema SampleUpdate: every field optional; `none` = key absent
(dropped by exclude_unset), `some v` = key present with value v
(where v itself may be null). Attribute access on the pydantic object
yields `Option.join`. There is no round field. -/
structure SampleUpdate where
  sample_type : Option (Option String) := none
  sample_description : Option (Option String) := none
  item : Option (Option String) := none
  gauge : Option (Option String) := none
  yarn_rcv_date : Option (Option String) := none
  required_date : Option (Option String) := none
  color : Option (Option String) := none
  assigned_designer : Option (Option String) := none
  required_sample_quantity : Option (Option Int) := none
  notes : Option (Option String) := none
  submit_status : Option (Option String) := none
  deriving DecidableEq

/-- Schema VariantColorPartBase. -/
structure VariantColorPartBase where
  part_name : String
  colour_name : String
  colour_code : Option String := none
  colour_ref : Option String := none
  sort_order : Int := 0
  deriving DecidableEq

/-- Schema StyleVariantCreate: base variant fields plus the optional
color_parts list. -/
structure StyleVariantCreate where
  style_summary_id : Nat
  style_name : String
  style_id : String
  colour_name : String
  colour_code : Option String := none
  colour_ref : Option String := none
  is_multicolor : Bool := false
  display_name : Option String := none
  piece_name : Option String := none
  sizes : Option (List String) := none
  color_parts : Option (List VariantColorPartBase) := none
  deriving DecidableEq

end ErpSamples

/-! ### Computed property and route handlers (routes/samples.py) -/

namespace ErpSamples

/-- StyleVariant.full_color_description (models/sample.py): multi-color
variants with a non-empty part list yield the stable sort of the parts by
sort_order joined as part_name colon colour_name; otherwise (single color or
empty part list, Python list truthiness) the variant's own colour_name. -/
def full_color_description (v : StyleVariant) (parts : List VariantColorPart) :
    String :=
  if v.is_multicolor && !parts.isEmpty then
    String.intercalate ", "
      ((sortBy (fun a b => decide (a.sort_order ≤ b.sort_order)) parts).map
        (fun p => p.part_name ++ ": " ++ p.colour_name))
  else v.colour_name

/-- One exclude_unset merge step: a present key overwrites, an absent key
leaves the current column value. -/
def mergeField (f : Option (Option τ)) (cur : Option τ) : Option τ :=
  match f with
  | some v => v
  | none => cur

/-- Body of update_sample on the found row: the round increment guarded by
the payload's submit_status attribute, followed by the exclude_unset merge
of the payload fields (which never touch round). -/
def applySampleUpdate (p : SampleUpdate) (s : Sample) : Sample :=
  let r : Int := if p.submit_status.join = some remakeStatus then s.round + 1
    else s.round
  { s with
    round := r
    sample_type := mergeField p.sample_type s.sample_type
    sample_description := mergeField p.sample_description s.sample_description
    item := mergeField p.item s.item
    gauge := mergeField p.gauge s.gauge
    yarn_rcv_date := mergeField p.yarn_rcv_date s.yarn_rcv_date
    required_date := mergeField p.required_date s.required_date
    color := mergeField p.color s.color
    assigned_designer := mergeField p.assigned_designer s.assigned_designer
    required_sample_quantity :=
      mergeField p.required_sample_quantity s.required_sample_quantity
    notes := mergeField p.notes s.notes
    submit_status := mergeField p.submit_status s.submit_status }

/-- PUT on a sample id (update_sample); 404 when no row has the id. -/
def update_sample (st : SamplesState) (sid : Nat) (p : SampleUpdate) :
    Except Nat SamplesState :=
  match st.samples.find? (fun t => t.id == sid) with
  | none => .error 404
  | some s =>
      .ok { st with samples :=
        replaceFirstBy (fun t => t.id == sid) (applySampleUpdate p s) st.samples }

/-- A sequence of update_sample calls; a 404 leaves the store unchanged. -/
def runUpdates (st : SamplesState) (ups : List (Nat × SampleUpdate)) :
    SamplesState :=
  ups.foldl (fun acc u =>
    match update_sample acc u.1 u.2 with
    | .ok st2 => st2
    | .error _ => acc) st

/-- The total_duration recomputation shared by create_sample_operation and
update_sample_operation: the dict's total_duration is overwritten with
duration * number_of_operation when both are Python-truthy (non-None and
nonzero); otherwise the dict keeps the caller-supplied total_duration. -/
def opTotalDuration (p : SampleOperationFields) : Option Rat :=
  if p.duration.getD 0 ≠ 0 ∧ p.number_of_operation ≠ 0 then
    some (p.duration.getD 0 * (p.number_of_operation : Rat))
  else p.total_duration

/-- The stored field set produced from an operation payload. -/
def opStoredFields (p : SampleOperationFields) : SampleOperationFields :=
  { p with total_duration := opTotalDuration p }

/-- POST /operations (create_sample_operation). -/
def create_sample_operation (st : SamplesState) (p : SampleOperationFields) :
    SamplesState :=
  { st with operations :=
      st.operations ++ [⟨nextId (st.operations.map (·.id)), opStoredFields p⟩] }

/-- PUT /operations/{operation_id} (update_sample_operation): overwrites
every field from the full model_dump, after the same recomputation. -/
def update_sample_operation (st : SamplesState) (oid : Nat)
    (p : SampleOperationFields) : Except Nat SamplesState :=
  match st.operations.find? (fun o => o.id == oid) with
  | none => .error 404
  | some o =>
      let row : SampleOperation := ⟨o.id, opStoredFields p⟩
      .ok { st with operations :=
        replaceFirstBy (fun q => q.id == oid) row st.operations }

/-- POST /plan (create_plan): find-or-overwrite keyed on the sample_id
string; the overwrite branch writes the full model_dump onto the found row. -/
def create_plan (st : SamplesState) (p : SamplePlanCreate) : SamplesState :=
  match st.plans.find? (fun r => r.data.sample_id == p.sample_id) with
  | some r =>
      let row : SamplePlan := ⟨r.id, p⟩
      { st with plans :=
          replaceFirstBy (fun q => q.data.sample_id == p.sample_id) row st.plans }
  | none =>
      { st with plans := st.plans ++ [⟨nextId (st.plans.map (·.id)), p⟩] }

/-- Outcome of delete_style: the three HTTPException shapes of the route. -/
inductive DeleteStyleError where
  | notFound
  | blockedBySamples (count : Nat)
  | blockedByVariants (count : Nat)
  deriving DecidableEq

def DeleteStyleError.statusCode : DeleteStyleError → Nat
  | .notFound => 404
  | .blockedBySamples _ => 400
  | .blockedByVariants _ => 400

/-- The detail string of each HTTPException raised by delete_style. -/
def DeleteStyleError.detail : DeleteStyleError → String
  | .notFound => "Style not found"
  | .blockedBySamples n =>
      "Cannot delete style. " ++ toString n ++ " sample(s) are using this style."
  | .blockedByVariants n =>
      "Cannot delete style. " ++ toString n ++
        " style variant(s) are using this style."

/-- DELETE /styles (delete_style): 404 when absent; 400 carrying the sample
count when dependent samples exist; otherwise 400 carrying the variant count
when dependent variants exist; otherwise the row is deleted. -/
def delete_style (st : SamplesState) (sid : Nat) :
    Except DeleteStyleError SamplesState :=
  match st.styles.find? (fun y => y.id == sid) with
  | none => .error .notFound
  | some _ =>
      let samplesCount := st.samples.countP (fun s => s.style_id == sid)
      if 0 < samplesCount then .error (.blockedBySamples samplesCount)
      else
        let variantsCount :=
          st.variants.countP (fun v => v.style_summary_id == sid)
        if 0 < variantsCount then .error (.blockedByVariants variantsCount)
        else .ok { st with styles := removeFirstBy (fun y => y.id == sid) st.styles }

/-- GET /styles by id (get_style); 404 when absent. -/
def get_style (st : SamplesState) (sid : Nat) : Except Nat StyleSummary :=
  match st.styles.find? (fun y => y.id == sid) with
  | none => .error 404
  | some y => .ok y

/-- The StyleVariant row built from a create payload via
model_dump excluding the color_parts key. -/
def variantOfPayload (vid : Nat) (p : StyleVariantCreate) : StyleVariant :=
  { id := vid
    style_summary_id := p.style_summary_id
    style_name := p.style_name
    style_id := p.style_id
    colour_name := p.colour_name
    colour_code := p.colour_code
    colour_ref := p.colour_ref
    is_multicolor := p.is_multicolor
    display_name := p.display_name
    piece_name := p.piece_name
    sizes := p.sizes }

/-- POST /style-variants (create_style_variant). -/
def create_style_variant (st : SamplesState) (p : StyleVariantCreate) :
    SamplesState :=
  { st with variants :=
      st.variants ++ [variantOfPayload (nextId (st.variants.map (·.id))) p] }

/-- DELETE on a sample id (delete_sample). The route body performs no
dependency check, but the schema does: sample_operations.sample_id is a
non-nullable ForeignKey to samples.id (models/sample.py, SampleOperation)
and the Sample.operations relationship has no delete cascade, so on the
flush of db.delete the ORM tries to null the children's sample_id and the
database rejects the commit with an integrity error whenever referencing
operation rows exist; the route has no try/except, so that surfaces as an
unhandled 500 and nothing is removed. Only a sample with no referencing
operation rows is actually deleted; an absent id answers 404. -/
def delete_sample (st : SamplesState) (sid : Nat) : Except Nat SamplesState :=
  match st.samples.find? (fun t => t.id == sid) with
  | none => .error 404
  | some _ =>
      if 0 < st.operations.countP (fun o => o.data.sample_id == sid) then
        .error 500
      else
        .ok { st with samples := removeFirstBy (fun t => t.id == sid) st.samples }

/-- GET / (get_samples): optional buyer filter — Python truthiness, so both
None and 0 skip the filter — then order by id descending, offset, limit.
The handler is total: it always answers 200 with a list. -/
def get_samples (st : SamplesState) (buyer_id : Option Int)
    (skip limit : Nat) : List Sample :=
  let q := match buyer_id with
    | some b =>
        if b == 0 then st.samples
        else st.samples.filter (fun s => s.buyer_id == b)
    | none => st.samples
  ((sortBy (fun a b => decide (b.id ≤ a.id)) q).drop skip).take limit

end ErpSamples

/-! ### Additional shared list lemmas -/

theorem find?_append_of_none {p : α → Bool} {l1 l2 : List α}
    (h : l1.find? p = none) : (l1 ++ l2).find? p = l2.find? p := by
  induction l1 with
  | nil => rfl
  | cons c cs ih =>
    rw [List.find?_eq_none] at h
    have hc : p c = false := by
      have := h c (by simp)
      simpa using this
    rw [List.cons_append, List.find?_cons_of_neg _ (by simp [hc])]
    exact ih (List.find?_eq_none.mpr fun x hx => h x (by simp [hx]))

theorem countP_eq_zero_of_find?_none {p : α → Bool} {l : List α}
    (h : l.find? p = none) : l.countP p = 0 := by
  rw [List.find?_eq_none] at h
  exact List.countP_eq_zero.mpr fun x hx => h x hx

namespace ErpSamples

/-- C5: for a multi-color variant with at least one color part, listed in
ascending sort_order, the full color description is the comma-joined
part_name colon colour_name sequence in that order; for a single-color
variant it is the variant's colour_name verbatim. -/
theorem full_color_description_spec :
    (∀ (v : StyleVariant) (parts : List VariantColorPart),
      v.is_multicolor = true → parts ≠ [] →
      parts.Pairwise (fun a b => a.sort_order ≤ b.sort_order) →
      full_color_description v parts =
        String.intercalate ", "
          (parts.map (fun p => p.part_name ++ ": " ++ p.colour_name))) ∧
    (∀ (v : StyleVariant) (parts : List VariantColorPart),
      v.is_multicolor = false →
      full_color_description v parts = v.colour_name) := by
  constructor
  · intro v parts hm hne hsorted
    have hsort :
        sortBy (fun a b => decide (a.sort_order ≤ b.sort_order)) parts = parts :=
      sortBy_eq_of_pairwise _ _ (hsorted.imp fun h => decide_eq_true h)
    obtain ⟨q, qs, rfl⟩ := List.exists_cons_of_ne_nil hne
    simp [full_color_description, hm, hsort]
  · intro v parts hm
    simp [full_color_description, hm]

/-- Concrete multi-color and single-color variants exercising C5. -/
theorem full_color_description_spec_witness :
    (full_color_description
      { id := 1, style_summary_id := 1, style_name := "Polo Shirt",
        style_id := "PS-001", colour_name := "Multi", colour_code := none,
        colour_ref := none, is_multicolor := true, display_name := none,
        piece_name := none, sizes := none }
      [{ id := 1, style_variant_id := 1, part_name := "Body",
         colour_name := "Navy Blue", colour_code := none, colour_ref := none,
         sort_order := 1 },
       { id := 2, style_variant_id := 1, part_name := "Collar",
         colour_name := "White", colour_code := none, colour_ref := none,
         sort_order := 2 },
       { id := 3, style_variant_id := 1, part_name := "Sleeves",
         colour_name := "Red", colour_code := none, colour_ref := none,
         sort_order := 3 }] =
      "Body: Navy Blue, Collar: White, Sleeves: Red") ∧
    (full_color_description
      { id := 2, style_summary_id := 1, style_name := "Polo Shirt",
        style_id := "PS-001", colour_name := "Navy", colour_code := none,
        colour_ref := none, is_multicolor := false, display_name := none,
        piece_name := none, sizes := none } [] = "Navy") := by
  constructor
  · rw [full_color_description_spec.1 _ _ rfl (by decide)
      (by decide)]
    rfl
  · exact full_color_description_spec.2 _ [] rfl

/-- C9: a multi-color variant with an empty color-part list falls back to the
single-color branch and yields its own colour_name, not an empty string. -/
theorem full_color_description_multicolor_no_parts
    (v : StyleVariant) (hm : v.is_multicolor = true) :
    full_color_description v [] = v.colour_name := by
  simp [full_color_description, hm]

/-- Concrete multi-color variant with no parts exercising C9. -/
theorem full_color_description_multicolor_no_parts_witness :
    full_color_description
      { id := 1, style_summary_id := 1, style_name := "Polo Shirt",
        style_id := "PS-001", colour_name := "Multi", colour_code := none,
        colour_ref := none, is_multicolor := true, display_name := none,
        piece_name := none, sizes := none } [] = "Multi" :=
  full_color_description_multicolor_no_parts _ rfl

/-- C7: create_style_variant persists only the variant's scalar columns:
the colorParts table (and every other table) is untouched, the stored row is
built from the payload excluding color_parts, and the resulting state does
not depend on the payload's color_parts list at all. -/
theorem create_style_variant_spec (st : SamplesState) (p : StyleVariantCreate)
    (cps : Option (List VariantColorPartBase)) :
    (create_style_variant st p).colorParts = st.colorParts ∧
    (create_style_variant st p).styles = st.styles ∧
    (create_style_variant st p).samples = st.samples ∧
    (create_style_variant st p).operations = st.operations ∧
    (create_style_variant st p).plans = st.plans ∧
    (create_style_variant st p).variants =
      st.variants ++ [variantOfPayload (nextId (st.variants.map (·.id))) p] ∧
    create_style_variant st { p with color_parts := cps } =
      create_style_variant st p :=
  ⟨rfl, rfl, rfl, rfl, rfl, rfl, rfl⟩

end ErpSamples

namespace ErpSamples

/-! ### Concrete fixtures used by witnesses and counterexamples -/

/-- A samples store with every table empty. -/
def emptyState : SamplesState :=
  { styles := [], variants := [], colorParts := [], samples := [],
    operations := [], plans := [] }

/-- A minimal sample row. -/
def sampleRow (i : Nat) (sid : String) (b : Int) (sty : Nat) (r : Int) :
    Sample :=
  { id := i, sample_id := sid, buyer_id := b, style_id := sty,
    sample_type := some "Proto", sample_description := none, item := none,
    gauge := none, worksheet_rcv_date := none, yarn_rcv_date := none,
    required_date := none, color := none, assigned_designer := none,
    required_sample_quantity := none, round := r, notes := none,
    submit_status := none }

/-- A minimal operation row referencing sample 1. -/
def opRowFix : SampleOperation :=
  ⟨1, { sample_id := 1, operation_type := "Knitting",
        name_of_operation := "Front Part", number_of_operation := 1,
        size := none, duration := none, total_duration := none }⟩

/-- Store holding sample 1 and one operation row referencing it. -/
def stC8 : SamplesState :=
  { emptyState with
      samples := [sampleRow 1 "S-1" 1 1 1]
      operations := [opRowFix] }

/-- C8 counterexample: sample 1 is referenced by one stored operation row,
and delete_sample answers the unhandled 500 of the rejected commit — it does
not succeed and nothing is orphaned, refuting the claimed unconditional
delete. -/
theorem delete_sample_blocked_cex :
    stC8.operations.countP (fun o => o.data.sample_id == 1) = 1 ∧
    delete_sample stC8 1 = .error 500 :=
  ⟨rfl, rfl⟩

/-- C8 amended: delete_sample performs no application-level dependency
check, but the non-nullable FK blocks it at commit: when no SampleOperation
row references the sample the delete succeeds and the operations table is
untouched; when at least one referencing row exists the commit is rejected
and the route answers an unhandled 500 with the store unchanged; an absent
id answers 404. -/
theorem delete_sample_spec (st : SamplesState) (sid : Nat) :
    (∀ s, st.samples.find? (fun t => t.id == sid) = some s →
      st.operations.countP (fun o => o.data.sample_id == sid) = 0 →
      delete_sample st sid =
        .ok { st with
              samples := removeFirstBy (fun t => t.id == sid) st.samples } ∧
      SamplesState.operations
        { st with
          samples := removeFirstBy (fun t => t.id == sid) st.samples } =
        st.operations) ∧
    (∀ s, st.samples.find? (fun t => t.id == sid) = some s →
      0 < st.operations.countP (fun o => o.data.sample_id == sid) →
      delete_sample st sid = .error 500) ∧
    (st.samples.find? (fun t => t.id == sid) = none →
      delete_sample st sid = .error 404) := by
  refine ⟨?_, ?_, ?_⟩
  · intro s hs hc
    refine ⟨?_, rfl⟩
    simp [delete_sample, hs, hc]
  · intro s hs hc
    simp [delete_sample, hs, hc]
  · intro h
    simp [delete_sample, h]

/-- Concrete runs of the amended C8: the referencing operation row blocks
the delete of sample 1 with 500; without referencing rows the same sample is
deleted and the operations table is untouched; an absent id answers 404. -/
theorem delete_sample_spec_witness :
    delete_sample stC8 1 = .error 500 ∧
    (delete_sample { stC8 with operations := [] } 1 =
      .ok { { stC8 with operations := [] } with
            samples := removeFirstBy (fun t => t.id == 1)
              (SamplesState.samples { stC8 with operations := [] }) } ∧
      SamplesState.operations
        { { stC8 with operations := [] } with
          samples := removeFirstBy (fun t => t.id == 1)
            (SamplesState.samples { stC8 with operations := [] }) } =
        SamplesState.operations { stC8 with operations := [] }) ∧
    delete_sample emptyState 1 = .error 404 := by
  refine ⟨?_, ?_, ?_⟩
  · exact (delete_sample_spec stC8 1).2.1 (sampleRow 1 "S-1" 1 1 1)
      (by decide) (by decide)
  · exact (delete_sample_spec { stC8 with operations := [] } 1).1
      (sampleRow 1 "S-1" 1 1 1) (by decide) rfl
  · exact (delete_sample_spec emptyState 1).2.2 (by decide)

/-- C2 counterexample payload: duration present but equal to 0.0. -/
def opZeroDuration : SampleOperationFields :=
  { sample_id := 1, operation_type := "Knitting",
    name_of_operation := "Front Part", number_of_operation := 1,
    size := none, duration := some 0, total_duration := some 99 }

/-- C2 counterexample: both duration and number_of_operation are present in
the payload, yet the stored total_duration is the caller-supplied 99, not
number_of_operation * duration = 0: Python truthiness skips the
recomputation when duration is 0.0. -/
theorem sample_operation_total_duration_cex :
    opZeroDuration.duration = some (0 : Rat) ∧
    opZeroDuration.number_of_operation = 1 ∧
    (create_sample_operation emptyState opZeroDuration).operations.map
      (fun o => o.data.total_duration) = [some (99 : Rat)] ∧
    (99 : Rat) ≠ ((1 : Int) : Rat) * 0 := by
  refine ⟨rfl, rfl, by decide, by norm_num⟩

end ErpSamples

namespace ErpSamples

/-- C2 amended: whenever duration is present and nonzero and
number_of_operation is nonzero (the Python-truthiness reading of
"both present"), the stored total_duration is
number_of_operation * duration, the caller-supplied total_duration is
ignored entirely, and both create and update store exactly these fields. -/
theorem sample_operation_total_duration_spec (st : SamplesState)
    (p : SampleOperationFields) (d : Rat) (hd : p.duration = some d)
    (hd0 : d ≠ 0) (hn : p.number_of_operation ≠ 0) :
    (opStoredFields p).total_duration =
      some ((p.number_of_operation : Rat) * d) ∧
    (∀ t, opStoredFields { p with total_duration := t } = opStoredFields p) ∧
    (create_sample_operation st p).operations =
      st.operations ++
        [⟨nextId (st.operations.map (·.id)), opStoredFields p⟩] ∧
    (∀ oid o, st.operations.find? (fun q => q.id == oid) = some o →
      update_sample_operation st oid p =
        .ok { st with
              operations := replaceFirstBy (fun q => q.id == oid)
                ⟨o.id, opStoredFields p⟩ st.operations }) := by
  have hT : opTotalDuration p = some ((p.number_of_operation : Rat) * d) := by
    simp [opTotalDuration, hd, hd0, hn, mul_comm]
  refine ⟨?_, ?_, rfl, ?_⟩
  · simp [opStoredFields, hT]
  · intro t
    simp [opStoredFields, opTotalDuration, hd, hd0, hn]
  · intro oid o ho
    simp [update_sample_operation, ho]

/-- C2 amended payload: duration 2.0 and number_of_operation 3 present, a
caller-supplied total_duration of 55 discarded in favour of 3 * 2 = 6. -/
def opFix2 : SampleOperationFields :=
  { sample_id := 1, operation_type := "Knitting",
    name_of_operation := "Front Part", number_of_operation := 3,
    size := none, duration := some 2, total_duration := some 55 }

/-- Store holding a single operation row, target of the concrete update. -/
def stOpFix : SamplesState := { emptyState with operations := [opRowFix] }

/-- Concrete run of the amended C2 on create and update. -/
theorem sample_operation_total_duration_spec_witness :
    (opStoredFields opFix2).total_duration =
      some ((opFix2.number_of_operation : Rat) * 2) ∧
    opStoredFields { opFix2 with total_duration := some 55 } =
      opStoredFields opFix2 ∧
    (create_sample_operation stOpFix opFix2).operations =
      stOpFix.operations ++
        [⟨nextId (stOpFix.operations.map (·.id)), opStoredFields opFix2⟩] ∧
    update_sample_operation stOpFix 1 opFix2 =
      .ok { stOpFix with
            operations := replaceFirstBy (fun q => q.id == 1)
              ⟨opRowFix.id, opStoredFields opFix2⟩ stOpFix.operations } := by
  have h := sample_operation_total_duration_spec stOpFix opFix2 2 rfl
    (by norm_num) (by decide)
  exact ⟨h.1, h.2.1 (some 55), h.2.2.1, h.2.2.2 1 opRowFix (by decide)⟩

end ErpSamples

namespace ErpSamples

/-- C1: updating a stored sample produces exactly the merged row, whose
round is the old round plus 1 when the payload's submit_status attribute
equals "Reject and Request for remake", and the old round for every other
value of the attribute (including unset, whose attribute reads as null). -/
theorem update_sample_round_spec (st : SamplesState) (sid : Nat)
    (p : SampleUpdate) (s : Sample)
    (hs : st.samples.find? (fun t => t.id == sid) = some s) :
    update_sample st sid p =
      .ok { st with
            samples := replaceFirstBy (fun t => t.id == sid)
              (applySampleUpdate p s) st.samples } ∧
    (replaceFirstBy (fun t => t.id == sid) (applySampleUpdate p s)
        st.samples).find? (fun t => t.id == sid) =
      some (applySampleUpdate p s) ∧
    (applySampleUpdate p s).round =
      (if p.submit_status.join = some remakeStatus then s.round + 1
        else s.round) := by
  refine ⟨by simp [update_sample, hs], ?_, rfl⟩
  refine find?_replaceFirstBy_self hs _ ?_
  have h := List.find?_some hs
  simpa [applySampleUpdate] using h

/-- Sample 1 with round 1, target of the concrete remake update. -/
def stC1 : SamplesState := { emptyState with samples := [sampleRow 1 "S-1" 1 1 1] }

/-- An update payload carrying only the remake submit status. -/
def remakePayload : SampleUpdate := { submit_status := some (some remakeStatus) }

/-- Concrete run of C1: the remake status takes round 1 to round 2. -/
theorem update_sample_round_spec_witness :
    update_sample stC1 1 remakePayload =
      .ok { stC1 with
            samples := replaceFirstBy (fun t => t.id == 1)
              (applySampleUpdate remakePayload (sampleRow 1 "S-1" 1 1 1))
              stC1.samples } ∧
    (applySampleUpdate remakePayload (sampleRow 1 "S-1" 1 1 1)).round = 2 := by
  have h := update_sample_round_spec stC1 1 remakePayload
    (sampleRow 1 "S-1" 1 1 1) (by decide)
  refine ⟨h.1, ?_⟩
  rw [h.2.2]
  decide

/-- round never decreases across one merged update. -/
theorem applySampleUpdate_round_mono (p : SampleUpdate) (s : Sample) :
    s.round ≤ (applySampleUpdate p s).round := by
  simp only [applySampleUpdate]
  split <;> omega

/-- One runUpdates step. -/
theorem runUpdates_cons (st : SamplesState) (u : Nat × SampleUpdate)
    (rest : List (Nat × SampleUpdate)) :
    runUpdates st (u :: rest) =
      runUpdates
        (match update_sample st u.1 u.2 with
          | .ok st2 => st2
          | .error _ => st) rest := rfl

/-- C10: across any sequence of update_sample calls, the round of the sample
found under any id never decreases: the update schema carries no round key,
so the guarded increment is the only mutation of round. -/
theorem update_sample_round_never_decreases
    (ups : List (Nat × SampleUpdate)) (st : SamplesState) (i : Nat)
    (s : Sample) (hs : st.samples.find? (fun t => t.id == i) = some s) :
    ∃ s2, (runUpdates st ups).samples.find? (fun t => t.id == i) = some s2 ∧
      s.round ≤ s2.round := by
  induction ups generalizing st s with
  | nil => exact ⟨s, hs, le_refl _⟩
  | cons u rest ih =>
    rw [runUpdates_cons]
    cases hu : update_sample st u.1 u.2 with
    | error e => exact ih st s hs
    | ok st2 =>
      cases hfu : st.samples.find? (fun t => t.id == u.1) with
      | none => simp [update_sample, hfu] at hu
      | some s0 =>
        simp only [update_sample, hfu, Except.ok.injEq] at hu
        subst hu
        by_cases hiu : u.1 = i
        · subst hiu
          rw [hs] at hfu
          have hss : s0 = s := (Option.some.inj hfu).symm
          subst hss
          have hfind2 := find?_replaceFirstBy_self hs
            (applySampleUpdate u.2 s0) (by
              have h := List.find?_some hs
              simpa [applySampleUpdate] using h)
          obtain ⟨s2, h2, hle⟩ := ih
            { st with
              samples := replaceFirstBy (fun t => t.id == u.1)
                (applySampleUpdate u.2 s0) st.samples }
            (applySampleUpdate u.2 s0) hfind2
          exact ⟨s2, h2,
            le_trans (applySampleUpdate_round_mono u.2 s0) hle⟩
        · have hdis : ∀ x : Sample,
              (x.id == u.1) = true → (x.id == i) = false := by
            intro x hx
            have hx' : x.id = u.1 := by simpa using hx
            simp [hx', hiu]
          have ha : ((applySampleUpdate u.2 s0).id == i) = false := by
            have h0 := List.find?_some hfu
            have h0' : s0.id = u.1 := by simpa using h0
            have hid : (applySampleUpdate u.2 s0).id = s0.id := rfl
            simp [hid, h0', hiu]
          have hfind2 : (replaceFirstBy (fun t => t.id == u.1)
              (applySampleUpdate u.2 s0) st.samples).find?
                (fun t => t.id == i) = some s := by
            rw [find?_replaceFirstBy_of_disjoint hdis ha]
            exact hs
          exact ih
            { st with
              samples := replaceFirstBy (fun t => t.id == u.1)
                (applySampleUpdate u.2 s0) st.samples } s hfind2

/-- Concrete run of C10: two consecutive remake updates take round 1 to 3. -/
theorem update_sample_round_never_decreases_witness :
    ∃ s2, (runUpdates stC1 [(1, remakePayload), (1, remakePayload)]).samples.find?
        (fun t => t.id == 1) = some s2 ∧
      (sampleRow 1 "S-1" 1 1 1).round ≤ s2.round :=
  update_sample_round_never_decreases [(1, remakePayload), (1, remakePayload)]
    stC1 1 (sampleRow 1 "S-1" 1 1 1) (by decide)

end ErpSamples

namespace ErpSamples

/-- Postcondition of one create_plan call on a store holding at most one row
for the payload's sample_id: afterwards exactly one row carries that
sample_id and the first such row holds exactly the payload's fields. -/
theorem create_plan_post (st : SamplesState) (p : SamplePlanCreate)
    (hcount : st.plans.countP (fun r => r.data.sample_id == p.sample_id) ≤ 1) :
    (create_plan st p).plans.countP
        (fun r => r.data.sample_id == p.sample_id) = 1 ∧
    ∃ r, (create_plan st p).plans.find?
        (fun r => r.data.sample_id == p.sample_id) = some r ∧ r.data = p := by
  cases hf : st.plans.find? (fun r => r.data.sample_id == p.sample_id) with
  | none =>
    have hc0 := countP_eq_zero_of_find?_none hf
    simp only [create_plan, hf]
    refine ⟨?_, ⟨nextId (st.plans.map (·.id)), p⟩, ?_, rfl⟩
    · rw [List.countP_append, hc0]
      simp
    · rw [find?_append_of_none hf]
      simp [List.find?]
  | some r =>
    have hpos := find?_eq_some_countP_pos hf
    have hc1 : st.plans.countP (fun r => r.data.sample_id == p.sample_id) = 1 :=
      le_antisymm hcount hpos
    simp only [create_plan, hf]
    refine ⟨?_, ⟨r.id, p⟩, ?_, rfl⟩
    · rw [countP_replaceFirstBy (by simp)]
      exact hc1
    · exact find?_replaceFirstBy_self hf _ (by simp)

/-- C3: two create_plan calls sharing one sample_id leave exactly one row
with that sample_id, whose fields all equal the second payload's fields —
a full overwrite, not a merge. -/
theorem create_plan_upsert_spec (st : SamplesState)
    (p1 p2 : SamplePlanCreate) (hsame : p1.sample_id = p2.sample_id)
    (hcount : st.plans.countP
      (fun r => r.data.sample_id == p2.sample_id) ≤ 1) :
    (create_plan (create_plan st p1) p2).plans.countP
        (fun r => r.data.sample_id == p2.sample_id) = 1 ∧
    ∃ r, (create_plan (create_plan st p1) p2).plans.find?
        (fun r => r.data.sample_id == p2.sample_id) = some r ∧
      r.data = p2 := by
  have h1 := create_plan_post st p1 (by rw [hsame]; exact hcount)
  have h1c : (create_plan st p1).plans.countP
      (fun r => r.data.sample_id == p2.sample_id) = 1 := by
    rw [← hsame]
    exact h1.1
  exact create_plan_post (create_plan st p1) p2 (le_of_eq h1c)

/-- First concrete plan payload for sample S-1. -/
def planFix1 : SamplePlanCreate :=
  { sample_id := "S-1", buyer_name := "Acme", style_name := "Polo",
    sample_type := "Proto", sample_description := some "first",
    item := none, gauge := none, worksheet_rcv_date := none,
    yarn_rcv_date := none, required_date := none, color := some "Navy",
    piece_name := none, assigned_designer := none,
    required_sample_quantity := some 2, round := 1, notes := none,
    submit_status := none }

/-- Second concrete plan payload for sample S-1, differing everywhere. -/
def planFix2 : SamplePlanCreate :=
  { sample_id := "S-1", buyer_name := "Zenith", style_name := "Tee",
    sample_type := "Fit", sample_description := none, item := some "knit",
    gauge := some "12", worksheet_rcv_date := none, yarn_rcv_date := none,
    required_date := none, color := none, piece_name := none,
    assigned_designer := some "Kim", required_sample_quantity := none,
    round := 3, notes := some "rush", submit_status := some "Approve" }

/-- Concrete run of C3: two creates for S-1 leave one row holding exactly
the second payload. -/
theorem create_plan_upsert_spec_witness :
    (create_plan (create_plan emptyState planFix1) planFix2).plans.countP
        (fun r => r.data.sample_id == planFix2.sample_id) = 1 ∧
    (create_plan (create_plan emptyState planFix1) planFix2).plans.find?
        (fun r => r.data.sample_id == planFix2.sample_id) =
      some ⟨1, planFix2⟩ := by
  have h := create_plan_upsert_spec emptyState planFix1 planFix2 rfl
    (by decide)
  exact ⟨h.1, by decide⟩

end ErpSamples

namespace ErpSamples

/-- Concrete style row with id 1. -/
def styleFix : StyleSummary :=
  { id := 1, buyer_id := 1, style_name := "Polo", style_id := "PS-001",
    product_category := none, product_type := none,
    customs_customer_group := none, type_of_construction := none,
    gauge := none, style_description := none, is_set := false,
    set_piece_count := none }

/-- Concrete variant row referencing style 1. -/
def variantFix : StyleVariant :=
  { id := 1, style_summary_id := 1, style_name := "Polo",
    style_id := "PS-001", colour_name := "Navy", colour_code := none,
    colour_ref := none, is_multicolor := false, display_name := none,
    piece_name := none, sizes := none }

/-- Store where style 1 is blocked by one sample and one variant. -/
def stC4 : SamplesState :=
  { emptyState with
      styles := [styleFix]
      variants := [variantFix]
      samples := [sampleRow 1 "S-1" 1 1 1] }

/-- C4 counterexample: style 1 has one dependent sample and one dependent
variant, yet delete_style reports only the sample count — the error value
carries no variant count at all, so the response does not report the exact
count of each kind of blocker. -/
theorem delete_style_each_blocker_cex :
    stC4.samples.countP (fun s => s.style_id == 1) = 1 ∧
    stC4.variants.countP (fun v => v.style_summary_id == 1) = 1 ∧
    delete_style stC4 1 = .error (.blockedBySamples 1) ∧
    DeleteStyleError.detail (.blockedBySamples 1) =
      "Cannot delete style. 1 sample(s) are using this style." ∧
    (DeleteStyleError.blockedBySamples 1) ≠ .blockedByVariants 1 := by
  refine ⟨rfl, rfl, rfl, rfl, by decide⟩

/-- C4 amended: delete_style on a stored style reports, as a 400 error, the
exact count of the first kind of blocker found — dependent samples when any
exist, dependent variants only when no samples do — and with zero dependents
of both kinds it deletes the row so that a subsequent get answers 404. -/
theorem delete_style_spec (st : SamplesState) (sid : Nat) (y : StyleSummary)
    (hy : st.styles.find? (fun t => t.id == sid) = some y)
    (huniq : st.styles.countP (fun t => t.id == sid) ≤ 1) :
    (0 < st.samples.countP (fun s => s.style_id == sid) →
      delete_style st sid =
        .error (.blockedBySamples
          (st.samples.countP (fun s => s.style_id == sid))) ∧
      DeleteStyleError.statusCode
        (.blockedBySamples
          (st.samples.countP (fun s => s.style_id == sid))) = 400) ∧
    (st.samples.countP (fun s => s.style_id == sid) = 0 →
      0 < st.variants.countP (fun v => v.style_summary_id == sid) →
      delete_style st sid =
        .error (.blockedByVariants
          (st.variants.countP (fun v => v.style_summary_id == sid))) ∧
      DeleteStyleError.statusCode
        (.blockedByVariants
          (st.variants.countP (fun v => v.style_summary_id == sid))) = 400) ∧
    (st.samples.countP (fun s => s.style_id == sid) = 0 →
      st.variants.countP (fun v => v.style_summary_id == sid) = 0 →
      delete_style st sid =
        .ok { st with
              styles := removeFirstBy (fun t => t.id == sid) st.styles } ∧
      get_style
        { st with styles := removeFirstBy (fun t => t.id == sid) st.styles }
        sid = .error 404) := by
  refine ⟨?_, ?_, ?_⟩
  · intro hsc
    refine ⟨?_, rfl⟩
    simp [delete_style, hy, hsc]
  · intro hsc hvc
    refine ⟨?_, rfl⟩
    simp [delete_style, hy, hsc, hvc]
  · intro hsc hvc
    constructor
    · simp [delete_style, hy, hsc, hvc]
    · have hnone := find?_removeFirstBy_of_countP_le_one huniq
      simp [get_style, hnone]

/-- Store where style 1 has zero dependents. -/
def stC4free : SamplesState := { emptyState with styles := [styleFix] }

/-- Concrete runs of the amended C4: blocked by one sample in stC4, and a
dependency-free delete in stC4free followed by a 404 on get. -/
theorem delete_style_spec_witness :
    (delete_style stC4 1 = .error (.blockedBySamples 1) ∧
      DeleteStyleError.statusCode (.blockedBySamples 1) = 400) ∧
    (delete_style stC4free 1 =
      .ok { stC4free with
            styles := removeFirstBy (fun t => t.id == 1) stC4free.styles } ∧
      get_style
        { stC4free with
          styles := removeFirstBy (fun t => t.id == 1) stC4free.styles } 1 =
        .error 404) := by
  constructor
  · have h := (delete_style_spec stC4 1 styleFix (by decide) (by decide)).1
      (by decide)
    exact h
  · exact (delete_style_spec stC4free 1 styleFix (by decide)
      (by decide)).2.2 rfl rfl

end ErpSamples

namespace ErpSamples

/-- Store with a single sample whose buyer is 5. -/
def stC6 : SamplesState := { emptyState with samples := [sampleRow 1 "S-1" 5 1 1] }

/-- C6 counterexample: supplying the filter buyer_id = 0 (a falsy value) is
silently ignored — the sample with buyer_id 5 is still returned, so the list
is not restricted to the supplied buyer_id. -/
theorem get_samples_buyer_zero_cex :
    get_samples stC6 (some 0) 0 10000 = [sampleRow 1 "S-1" 5 1 1] ∧
    (sampleRow 1 "S-1" 5 1 1).buyer_id = 5 ∧ (5 : Int) ≠ 0 := by
  refine ⟨by decide, rfl, by norm_num⟩

/-- C6 amended: the list endpoint is total (always a 200 list); when a
nonzero buyer_id is supplied every returned sample is a stored sample with
that buyer_id, and with skip 0 and a limit at least the table size the
listing is complete for that buyer; a supplied buyer_id of 0 is treated as
no filter (Python truthiness), and without the filter every returned sample
is simply a stored sample. -/
theorem get_samples_spec (st : SamplesState) (b : Int) (skip limit : Nat) :
    (∀ s ∈ get_samples st (some b) skip limit, b ≠ 0 →
      s ∈ st.samples ∧ s.buyer_id = b) ∧
    (∀ s ∈ get_samples st none skip limit, s ∈ st.samples) ∧
    (b ≠ 0 → st.samples.length ≤ limit →
      ∀ s ∈ st.samples, s.buyer_id = b →
        s ∈ get_samples st (some b) 0 limit) := by
  refine ⟨?_, ?_, ?_⟩
  · intro s hs hb
    have hb' : (b == 0) = false := by simpa using hb
    simp only [get_samples, hb', Bool.false_eq_true, if_false, ite_false] at hs
    have h1 := List.take_subset _ _ hs
    have h2 := List.drop_subset _ _ h1
    have h3 := mem_sortBy.mp h2
    have h4 := List.mem_filter.mp h3
    exact ⟨h4.1, by simpa using h4.2⟩
  · intro s hs
    simp only [get_samples] at hs
    have h1 := List.take_subset _ _ hs
    have h2 := List.drop_subset _ _ h1
    exact mem_sortBy.mp h2
  · intro hb hlen s hsmem hsb
    have hb' : (b == 0) = false := by simpa using hb
    simp only [get_samples, hb', Bool.false_eq_true, if_false, ite_false,
      List.drop_zero]
    have hmemf : s ∈ st.samples.filter (fun t => t.buyer_id == b) :=
      List.mem_filter.mpr ⟨hsmem, by simpa using hsb⟩
    have hlenf : (sortBy (fun a c => decide (c.id ≤ a.id))
        (st.samples.filter (fun t => t.buyer_id == b))).length ≤ limit := by
      rw [length_sortBy]
      exact le_trans (List.length_filter_le _ _) hlen
    rw [List.take_of_length_le hlenf]
    exact mem_sortBy.mpr hmemf

/-- Concrete run of the amended C6: with buyer filter 5 the stored sample is
returned and carries buyer_id 5. -/
theorem get_samples_spec_witness :
    (5 : Int) ≠ 0 ∧
    sampleRow 1 "S-1" 5 1 1 ∈ get_samples stC6 (some 5) 0 10000 ∧
    (sampleRow 1 "S-1" 5 1 1).buyer_id = 5 := by
  refine ⟨by norm_num, ?_, rfl⟩
  exact (get_samples_spec stC6 5 0 10000).2.2 (by norm_num) (by decide)
    (sampleRow 1 "S-1" 5 1 1) (by decide) rfl

end ErpSamples
